import Mathlib

/-!
Verification of `libmachine/drivers/plugin/localbinary/plugin.go` (package
`localbinary` of skanakal/machine): the local plugin-binary supervisor.

The Go file is shallowly embedded: pure string manipulation becomes Lean
functions on `String`/`List Char`; the OS-process and channel effects become
explicit data (a launch specification record, an explicit channel state, an
event list standing for one interleaving chosen by the `select` scheduler).
Fallible Go paths become `Except`/`Option`.
-/

namespace LocalBinary

/-- Go `unicode.IsSpace`: the White_Space code points recognised by Go's
`strings.TrimSpace` (Latin-1 fast path plus the Unicode White_Space table). -/
def goIsSpace (c : Char) : Bool :=
  let n := c.toNat
  n = 9 || n = 10 || n = 11 || n = 12 || n = 13 || n = 32 ||
  n = 0x85 || n = 0xA0 || n = 0x1680 || (0x2000 ≤ n && n ≤ 0x200A) ||
  n = 0x2028 || n = 0x2029 || n = 0x202F || n = 0x205F || n = 0x3000

/-- Go `strings.TrimSpace s`: remove leading and trailing white-space runes. -/
def goTrimSpace (s : String) : String :=
  String.mk (((s.data.dropWhile goIsSpace).reverse.dropWhile goIsSpace).reverse)

/-- Go `strconv.Atoi`: optional sign, decimal digits, 64-bit range check.
`none` models a non-nil error (empty input, stray characters, overflow). -/
def goAtoi (s : String) : Option Int :=
  let cs := s.data
  let signed : Bool × List Char :=
    match cs with
    | '+' :: rest => (false, rest)
    | '-' :: rest => (true, rest)
    | _ => (false, cs)
  let neg := signed.1
  let digits := signed.2
  if digits.isEmpty then none
  else if digits.all (fun c => '0' ≤ c && c ≤ '9') then
    let n : Nat := digits.foldl (fun acc c => acc * 10 + (c.toNat - 48)) 0
    let v : Int := if neg then -(n : Int) else (n : Int)
    if (-9223372036854775808 : Int) ≤ v ∧ v ≤ 9223372036854775807 then some v
    else none
  else none

/-- Go `uint32(v)` on an `int`: two's-complement truncation to 32 bits. -/
def goUint32 (v : Int) : Nat := (v % 4294967296).toNat

/-! ## Constants of the Go file -/

/-- `defaultTimeout = 10 * time.Second`, in nanoseconds (Go `time.Duration`). -/
def defaultTimeout : Nat := 10000000000

def PluginEnvKey : String := "MACHINE_PLUGIN_TOKEN"

def PluginEnvVal : String := "42"

def PluginEnvDriverName : String := "MACHINE_PLUGIN_DRIVER_NAME"

/-- The static `CoreDrivers` catalog. -/
def CoreDrivers : List String :=
  ["amazonec2", "azure", "digitalocean", "exoscale", "generic", "google",
   "hyperv", "none", "openstack", "rackspace", "softlayer", "virtualbox",
   "vmwarefusion", "vmwarevcloudair", "vmwarevsphere", "pod", "noop"]

/-! ## `driverPath` and `NewPlugin` -/

/-- Go `filepath.Split` (Unix separator): everything up to and including the
final slash, and the remainder. -/
def filepathSplit (path : String) : String × String :=
  let cs := path.data
  let file := (cs.reverse.takeWhile (fun c => c ≠ '/')).reverse
  let dir := cs.take (cs.length - file.length)
  (String.mk dir, String.mk file)

/-- `driverPath driverName`: core drivers reuse the current binary when it is
docker-machine, else the name `rancher-machine`; other drivers get the
`docker-machine-driver-` prefixed binary name.  The two package-level globals
`CurrentBinaryIsDockerMachine` and `os.Args[0]` are passed explicitly. -/
def driverPath (currentBinaryIsDockerMachine : Bool) (arg0 : String)
    (driverName : String) : String :=
  if CoreDrivers.contains driverName then
    if currentBinaryIsDockerMachine then arg0 else "rancher-machine"
  else "docker-machine-driver-" ++ driverName

/-- Result of `NewPlugin`: either a constructed plugin (its executor records a
driver name and resolved binary path; no process was launched) or the
`ErrPluginBinaryNotFound{driverName, driverPath}` value. -/
inductive NewPluginResult where
  | ok (driverName binaryPath : String)
  | binaryNotFound (driverName driverPath : String)
deriving DecidableEq, Repr

/-- `NewPlugin driverName`: split off a directory part; a bare name goes
through `driverPath`, a path-form name is looked up as given.  `lookPath`
models `exec.LookPath` (`none` = lookup error). -/
def newPlugin (lookPath : String → Option String)
    (currentBinaryIsDockerMachine : Bool) (arg0 : String)
    (driverName : String) : NewPluginResult :=
  let dir := (filepathSplit driverName).1
  let name := (filepathSplit driverName).2
  let path :=
    if dir = "" then driverPath currentBinaryIsDockerMachine arg0 driverName
    else driverName
  match lookPath path with
  | none => .binaryNotFound name path
  | some binaryPath => .ok name binaryPath

/-! ## `Executor.Start` -/

/-- Errors `Executor.Start` can return, in source order: the two
`strconv.Atoi` failures, the two pipe-creation failures, `cmd.Start` failure. -/
inductive StartError where
  | uidParseError
  | gidParseError
  | stdoutPipeError
  | stderrPipeError
  | processStartError
deriving DecidableEq, Repr

/-- What a successful `Executor.Start` hands to the OS: the child's argument
vector (`cmd.Args`), the optional `syscall.Credential` (uid, gid), and the two
environment variables written via `os.Setenv` before `cmd.Start`. -/
structure LaunchSpec where
  argv : List String
  credential : Option (Nat × Nat)
  envAdditions : List (String × String)
deriving DecidableEq, Repr

/-- The tail of `Executor.Start` after credential handling: stdout pipe,
stderr pipe, the two `os.Setenv` writes, then `cmd.Start`.  The three `Bool`
flags model whether each OS call succeeds. -/
def startFinish (driverName : String) (argv : List String)
    (credential : Option (Nat × Nat))
    (stdoutPipeOk stderrPipeOk startOk : Bool) : Except StartError LaunchSpec :=
  if !stdoutPipeOk then .error .stdoutPipeError
  else if !stderrPipeOk then .error .stderrPipeError
  else if !startOk then .error .processStartError
  else .ok ⟨argv, credential,
    [(PluginEnvKey, PluginEnvVal), (PluginEnvDriverName, driverName)]⟩

/-- The credential block of `Executor.Start` (lines 172–189): if both
`MACHINE_PLUGIN_UID` and `MACHINE_PLUGIN_GID` are non-empty, both are parsed
with `strconv.Atoi` — either failure is returned at once — and a
`syscall.Credential` is built from the `uint32` conversions of the parsed
values; otherwise (zero or one variable set) no credential is built. -/
def startCredential (uidEnv gidEnv : String) :
    Except StartError (Option (Nat × Nat)) :=
  if uidEnv ≠ "" ∧ gidEnv ≠ "" then
    match goAtoi uidEnv with
    | none => .error .uidParseError
    | some u =>
      match goAtoi gidEnv with
      | none => .error .gidParseError
      | some g => .ok (some (goUint32 u, goUint32 g))
  else .ok none

/-- `Executor.Start`: builds `exec.Command(binaryPath, os.Args...)` — whose
`cmd.Args` is the binary path followed by ALL of `os.Args` — then runs the
credential block (a parse failure there returns before any pipe is created or
any process spawned), then the pipes, the `os.Setenv` writes and `cmd.Start`. -/
def executorStart (driverName binaryPath : String) (osArgs : List String)
    (uidEnv gidEnv : String)
    (stdoutPipeOk stderrPipeOk startOk : Bool) : Except StartError LaunchSpec :=
  let argv := binaryPath :: osArgs
  match startCredential uidEnv gidEnv with
  | .error e => .error e
  | .ok cred =>
    startFinish driverName argv cred stdoutPipeOk stderrPipeOk startOk

/-- `Executor.Close`: `cmd.Wait()`, wrapping a non-nil wait error.
`waitErr` models the result of `Wait` (`none` = child exited cleanly). -/
def executorClose (waitErr : Option String) : Except String Unit :=
  match waitErr with
  | some e => .error ("Error waiting for binary close: " ++ e)
  | none => .ok ()

/-! ## The handshake (`execServer`, lines 244–252) -/

/-- Outcome of the one-line address handshake: either an address value was
sent on `addrCh` (and `execServer` proceeds to the event loop), or
`execServer` returned an error without sending anything. -/
inductive HandshakeResult where
  | published (addr : String)
  | failed (msg : String)
deriving DecidableEq, Repr

/-- A handshake step: its result together with the stdout lines left over for
the relay goroutine (showing exactly one line is consumed). -/
structure HandshakeStep where
  result : HandshakeResult
  remaining : List String
deriving DecidableEq, Repr

/-- The handshake of `execServer`: one `outScanner.Scan()`.  `stdoutLines` is
the sequence of lines the child's stdout will produce; `scanErr` is the
scanner's non-EOF error once the lines run out (`none` = plain EOF).  With a
first line available, `Scan` succeeds, `Err()` is nil, and the line trimmed
with `strings.TrimSpace` is sent on `addrCh`.  With no line: on a scanner
error `execServer` returns `Reading plugin address failed`; on plain EOF
`Scan` returns false but `Err()` is nil, so the empty `Text()` is trimmed and
sent as the address. -/
def serveHandshake (stdoutLines : List String) (scanErr : Option String) :
    HandshakeStep :=
  match stdoutLines with
  | l :: rest => ⟨.published (goTrimSpace l), rest⟩
  | [] =>
    match scanErr with
    | some e => ⟨.failed ("Reading plugin address failed: " ++ e), []⟩
    | none => ⟨.published (goTrimSpace ""), []⟩

/-! ## `Plugin.Address` (lines 276–292) -/

/-- The fields of `Plugin` visible to `Address`: the cached `Addr`, the state
of the one-slot `addrCh` (its buffered value, if any, and whether it has been
closed), and the `timeout` duration (0 = unset, Go zero value). -/
structure PluginState where
  Addr : String
  addrChBuf : Option String
  addrChClosed : Bool
  timeout : Nat
deriving DecidableEq, Repr

/-- Observable result of one `Address` call: the returned address, the
timeout error (carrying the duration it names), or the run-time panic Go
raises on `close` of an already-closed channel. -/
inductive AddressOutcome where
  | ok (addr : String)
  | timeoutErr (elapsed : Nat)
  | panicked
deriving DecidableEq, Repr

/-- One `Address` call: its outcome, the plugin state afterwards, and how
many receives from `addrCh` it performed. -/
structure AddressStep where
  outcome : AddressOutcome
  state : PluginState
  chanReceives : Nat
deriving DecidableEq, Repr

/-- `Plugin.Address`: if `Addr` is non-empty it is returned at once with no
channel operation.  Otherwise the timeout defaults to `defaultTimeout` when
unset, and the `select` races `<-lbp.addrCh` against `<-time.After(timeout)`.
A buffered value is received immediately (cached into `Addr`, channel closed);
a closed empty channel yields the zero value `""` immediately and the
following `close` panics; on an open empty channel, `arrival` says whether a
send lands within the timeout window (`none` = the timer fires first, leaving
the channel untouched). -/
def addressCall (s : PluginState) (arrival : Option String) : AddressStep :=
  if s.Addr = "" then
    let t := if s.timeout = 0 then defaultTimeout else s.timeout
    match s.addrChBuf, s.addrChClosed with
    | some v, false => ⟨.ok v, ⟨v, none, true, t⟩, 1⟩
    | some v, true => ⟨.panicked, ⟨v, none, true, t⟩, 1⟩
    | none, true => ⟨.panicked, ⟨"", none, true, t⟩, 1⟩
    | none, false =>
      match arrival with
      | some v => ⟨.ok v, ⟨v, none, true, t⟩, 1⟩
      | none => ⟨.timeoutErr t, ⟨"", none, false, t⟩, 0⟩
  else ⟨.ok s.Addr, s, 0⟩

/-! ## The event loop of `execServer` (lines 257–269) and `Plugin.Close` -/

/-- One ready channel in the `select` of `execServer`: a line from the stdout
relay, a line from the stderr relay, or the stop signal. -/
inductive LoopEvent where
  | outLine (s : String)
  | errLine (s : String)
  | stop
deriving DecidableEq, Repr

/-- A record handed to the logging sink: `log.Infof` with the `pluginOut`
format, or `log.Debugf` with the `pluginErr` format. -/
inductive LogRecord where
  | info (msg : String)
  | debug (msg : String)
deriving DecidableEq, Repr

/-- What `execServer` returns once the stop signal is taken: `Executor.Close`
is invoked, a wait failure is wrapped as `Error closing local plugin binary`,
success returns nil. -/
def serveStopResult (waitErr : Option String) : Except String Unit :=
  match executorClose waitErr with
  | .ok _ => .ok ()
  | .error e => .error ("Error closing local plugin binary: " ++ e)

/-- The `for`/`select` loop of `execServer`, run over one interleaving of
ready events (the list order models the scheduler's choices).  Returns the
value `execServer` returns (`none` while the loop is still blocked) and the
log records emitted, in order.  stdout lines are logged at info level with
the `(%s) %s` format, stderr lines at debug level with `(%s) DBG | %s`; the
stop signal exits the loop through `Executor.Close`. -/
def eventLoop (machineName : String) (events : List LoopEvent)
    (waitErr : Option String) : Option (Except String Unit) × List LogRecord :=
  match events with
  | [] => (none, [])
  | .outLine s :: rest =>
    let r := eventLoop machineName rest waitErr
    (r.1, .info ("(" ++ machineName ++ ") " ++ s) :: r.2)
  | .errLine s :: rest =>
    let r := eventLoop machineName rest waitErr
    (r.1, .debug ("(" ++ machineName ++ ") DBG | " ++ s) :: r.2)
  | .stop :: _ => (some (serveStopResult waitErr), [])

/-- `Plugin.Close`: `lbp.stopCh <- true; return nil`.  Its effect is the list
of values sent on `stopCh` paired with the returned error (`none` = nil); it
performs no wait on the serve loop. -/
def pluginClose (_lbp : PluginState) : List Bool × Option String :=
  ([true], none)

/-- Claimed argv composition, written from the spec's words rather than the
source: the supervisor's argument vector with only its argv[0] replaced by
the resolved binary path.  Compared against `executorStart` below. -/
def claimedChildArgv (binaryPath : String) (osArgs : List String) :
    List String :=
  binaryPath :: osArgs.tail

/-! ## Helper lemmas -/

theorem startFinish_ok_argv (dn : String) (argv : List String)
    (cred : Option (Nat × Nat)) (po pe so : Bool) (spec : LaunchSpec)
    (h : startFinish dn argv cred po pe so = .ok spec) : spec.argv = argv := by
  unfold startFinish at h
  split at h
  · exact Except.noConfusion h
  · split at h
    · exact Except.noConfusion h
    · split at h
      · exact Except.noConfusion h
      · simp only [Except.ok.injEq] at h
        subst h
        rfl

theorem startFinish_ne_parse (dn : String) (argv : List String)
    (cred : Option (Nat × Nat)) (po pe so : Bool) :
    startFinish dn argv cred po pe so ≠ .error .uidParseError ∧
    startFinish dn argv cred po pe so ≠ .error .gidParseError := by
  unfold startFinish
  cases po <;> cases pe <;> cases so <;> simp

theorem startFinish_all_ok (dn : String) (argv : List String)
    (cred : Option (Nat × Nat)) :
    startFinish dn argv cred true true true =
      .ok ⟨argv, cred,
        [(PluginEnvKey, PluginEnvVal), (PluginEnvDriverName, dn)]⟩ := rfl

theorem string_mk_data (s : String) : String.mk s.data = s := by
  obtain ⟨d⟩ := s
  rfl

theorem filepathSplit_no_slash (s : String) (h : ('/' : Char) ∉ s.data) :
    filepathSplit s = ("", s) := by
  have hall : s.data.reverse.takeWhile (fun c => decide (c ≠ '/')) =
      s.data.reverse := by
    rw [List.takeWhile_eq_self_iff]
    intro c hc
    have hc2 : c ∈ s.data := List.mem_reverse.mp hc
    have hcne : c ≠ '/' := fun he => h (he ▸ hc2)
    simpa using hcne
  simp only [filepathSplit, hall, List.reverse_reverse, Nat.sub_self,
    List.take_zero, string_mk_data]

theorem addressCall_ok_state_addr (s : PluginState) (arr : Option String)
    (a : String) (h : (addressCall s arr).outcome = AddressOutcome.ok a) :
    (addressCall s arr).state.Addr = a := by
  obtain ⟨A, buf, closed, T⟩ := s
  by_cases hA : A = ""
  · subst hA
    rcases buf with _ | v <;> cases closed <;>
      simp_all [addressCall]
    rcases arr with _ | v <;> simp_all
  · simp_all [addressCall]

/-! ## The claims -/

/-- C1 counterexample: with the stdout source exhausted (EOF, nil scanner
error) before any line, the handshake does not fail — it publishes the empty
string as the address, contradicting the claim that exhaustion yields an
`AddressHandshakeFailure` with nothing published. -/
theorem c1_counterexample :
    serveHandshake [] none = ⟨HandshakeResult.published "", []⟩ := by decide

/-- C1 (amended): if the stdout source errors before a first line, the
handshake fails with the address-read failure and publishes nothing; if the
source is merely exhausted (plain EOF), the handshake instead publishes the
empty string as the address and proceeds. -/
theorem c1_handshake_failure :
    (∀ e, serveHandshake [] (some e) =
      ⟨HandshakeResult.failed ("Reading plugin address failed: " ++ e), []⟩) ∧
    serveHandshake [] none = ⟨HandshakeResult.published "", []⟩ := by
  exact ⟨fun e => rfl, by decide⟩

/-- C2: with a first stdout line available, the handshake consumes exactly
that one line (the rest are left for the relay), publishes it trimmed of
surrounding whitespace, and an `Address` call on the resulting channel state
returns exactly that trimmed line, whatever the timeout. -/
theorem c2_handshake_address :
    ∀ (l : String) (rest : List String) (scanErr : Option String) (t : Nat)
      (arrival : Option String),
    serveHandshake (l :: rest) scanErr = ⟨.published (goTrimSpace l), rest⟩ ∧
    (addressCall ⟨"", some (goTrimSpace l), false, t⟩ arrival).outcome =
      AddressOutcome.ok (goTrimSpace l) := by
  intro l rest scanErr t arrival
  exact ⟨rfl, by simp [addressCall]⟩

/-- C3: with both identity variables non-empty — if both parse as integers
(in `uint32` range, as OS identities are), the launch carries exactly that
credential; if the uid fails to parse, Start returns the uid parse error
whatever the later pipe/spawn outcomes would be (so nothing is spawned), and
likewise for the gid. -/
theorem c3_identity :
    ∀ (dn bp : String) (args : List String) (ue ge : String) (po pe so : Bool),
    ue ≠ "" → ge ≠ "" →
    (∀ u g : Int, goAtoi ue = some u → goAtoi ge = some g →
        0 ≤ u → u < 4294967296 → 0 ≤ g → g < 4294967296 →
        executorStart dn bp args ue ge true true true =
          Except.ok ⟨bp :: args, some (u.toNat, g.toNat),
            [(PluginEnvKey, PluginEnvVal), (PluginEnvDriverName, dn)]⟩) ∧
    (goAtoi ue = none →
        executorStart dn bp args ue ge po pe so =
          Except.error .uidParseError) ∧
    (∀ u : Int, goAtoi ue = some u → goAtoi ge = none →
        executorStart dn bp args ue ge po pe so =
          Except.error .gidParseError) := by
  intro dn bp args ue ge po pe so hue hge
  have hcond : (ue ≠ "" ∧ ge ≠ "") := ⟨hue, hge⟩
  refine ⟨?_, ?_, ?_⟩
  · intro u g hu hg hu0 hu32 hg0 hg32
    have hcu : goUint32 u = u.toNat := by
      unfold goUint32
      rw [Int.emod_eq_of_lt hu0 hu32]
    have hcg : goUint32 g = g.toNat := by
      unfold goUint32
      rw [Int.emod_eq_of_lt hg0 hg32]
    unfold executorStart startCredential
    rw [if_pos hcond, hu, hg]
    simp only [hcu, hcg]
    exact startFinish_all_ok dn (bp :: args) (some (u.toNat, g.toNat))
  · intro hu
    unfold executorStart startCredential
    rw [if_pos hcond, hu]
  · intro u hu hg
    unfold executorStart startCredential
    rw [if_pos hcond, hu, hg]

/-- C3 witness at `uid=10`, `gid=20`. -/
theorem c3_identity_witness :
    executorStart "d" "b" [] "10" "20" true true true =
      Except.ok ⟨["b"], some (10, 20),
        [(PluginEnvKey, PluginEnvVal), (PluginEnvDriverName, "d")]⟩ :=
  (c3_identity "d" "b" [] "10" "20" true true true (by decide) (by decide)).1
    10 20 (by decide) (by decide) (by decide) (by decide) (by decide)
    (by decide)

/-- C4: when exactly one of the two identity variables is set, Start never
fails with a parse error and — with the OS calls succeeding — launches with
no credential at all: the lone variable is ignored, no partial identity is
applied. -/
theorem c4_single_identity_ignored :
    ∀ (dn bp : String) (args : List String) (ue ge : String) (po pe so : Bool),
    (ue = "" ∧ ge ≠ "") ∨ (ue ≠ "" ∧ ge = "") →
    executorStart dn bp args ue ge po pe so ≠ Except.error .uidParseError ∧
    executorStart dn bp args ue ge po pe so ≠ Except.error .gidParseError ∧
    executorStart dn bp args ue ge true true true =
      Except.ok ⟨bp :: args, none,
        [(PluginEnvKey, PluginEnvVal), (PluginEnvDriverName, dn)]⟩ := by
  intro dn bp args ue ge po pe so hone
  have hcond : ¬ (ue ≠ "" ∧ ge ≠ "") := by
    rcases hone with ⟨h1, _⟩ | ⟨_, h2⟩
    · exact fun hc => hc.1 h1
    · exact fun hc => hc.2 h2
  have hcred : startCredential ue ge = .ok none := by
    unfold startCredential
    rw [if_neg hcond]
  refine ⟨?_, ?_, ?_⟩
  · show executorStart dn bp args ue ge po pe so ≠ _
    unfold executorStart
    rw [hcred]
    exact (startFinish_ne_parse dn (bp :: args) none po pe so).1
  · show executorStart dn bp args ue ge po pe so ≠ _
    unfold executorStart
    rw [hcred]
    exact (startFinish_ne_parse dn (bp :: args) none po pe so).2
  · unfold executorStart
    rw [hcred]
    exact startFinish_all_ok dn (bp :: args) none

/-- C4 witness: only the gid variable set. -/
theorem c4_single_identity_ignored_witness :
    executorStart "d" "b" [] "" "20" true true true =
      Except.ok ⟨["b"], none,
        [(PluginEnvKey, PluginEnvVal), (PluginEnvDriverName, "d")]⟩ :=
  (c4_single_identity_ignored "d" "b" [] "" "20" true true true
    (Or.inl ⟨rfl, by decide⟩)).2.2

/-- C5: an `Address` call before any publish (empty open channel), with no
arrival inside the window, returns the timeout error naming the configured
timeout — `defaultTimeout` = 10 s when the field is unset — performs no
channel receive, leaves the channel open, and a later call succeeds once the
handshake completes. -/
theorem c5_timeout :
    ∀ s : PluginState, s.Addr = "" → s.addrChBuf = none →
    s.addrChClosed = false →
    ∀ t : Nat, t = (if s.timeout = 0 then defaultTimeout else s.timeout) →
    addressCall s none = ⟨.timeoutErr t, ⟨"", none, false, t⟩, 0⟩ ∧
    (s.timeout = 0 → t = 10000000000) ∧
    (∀ a, addressCall ⟨"", none, false, t⟩ (some a) =
      ⟨.ok a, ⟨a, none, true, t⟩, 1⟩) := by
  intro s h1 h2 h3 t ht
  obtain ⟨A, buf, closed, T⟩ := s
  simp only at h1 h2 h3
  subst h1; subst h2; subst h3
  simp only at ht
  have htne : t ≠ 0 := by
    rcases Nat.eq_zero_or_pos T with hT | hT
    · subst hT
      simp [defaultTimeout] at ht
      subst ht
      decide
    · rw [if_neg (Nat.pos_iff_ne_zero.mp hT)] at ht
      subst ht
      exact Nat.pos_iff_ne_zero.mp hT
  refine ⟨?_, ?_, ?_⟩
  · simp [addressCall, ht]
  · intro hT0
    simp only at hT0
    rw [ht, if_pos hT0]
    rfl
  · intro a
    simp [addressCall, htne]

/-- C5 witness: unset timeout, no arrival, the 10-second default named. -/
theorem c5_timeout_witness :
    addressCall ⟨"", none, false, 0⟩ none =
      ⟨.timeoutErr 10000000000, ⟨"", none, false, 10000000000⟩, 0⟩ :=
  (c5_timeout ⟨"", none, false, 0⟩ rfl rfl rfl 10000000000 (by decide)).1

/-- C6 counterexample: after the handshake publishes a whitespace-only (hence
empty) address, the first `Address` call succeeds returning `""`, but the
second call — because the cache test is `Addr == ""` — receives again from
the now-closed channel (one more receive) and panics on the second `close`,
instead of returning the cached address with no channel operation. -/
theorem c6_counterexample :
    (addressCall ⟨"", some "", false, 5⟩ none).outcome = AddressOutcome.ok ""
      ∧
    addressCall (addressCall ⟨"", some "", false, 5⟩ none).state none =
      ⟨.panicked, ⟨"", none, true, 5⟩, 1⟩ := by decide

/-- C6 (amended): after a successful first `Address` call returning a
NON-EMPTY address, any later call returns that same cached address
immediately with no error, no channel receive, and no state change. -/
theorem c6_cached_second_call :
    ∀ (s : PluginState) (arr arr2 : Option String) (a : String),
    (addressCall s arr).outcome = AddressOutcome.ok a → a ≠ "" →
    addressCall (addressCall s arr).state arr2 =
      ⟨.ok a, (addressCall s arr).state, 0⟩ := by
  intro s arr arr2 a h hne
  have hAddr := addressCall_ok_state_addr s arr a h
  generalize hst : (addressCall s arr).state = st at hAddr ⊢
  obtain ⟨A, buf, closed, T⟩ := st
  simp only at hAddr
  subst hAddr
  simp [addressCall, hne]

/-- C6 witness: second call after discovering "addr:1". -/
theorem c6_cached_second_call_witness :
    addressCall (addressCall ⟨"", some "addr:1", false, 7⟩ none).state none =
      ⟨.ok "addr:1", (addressCall ⟨"", some "addr:1", false, 7⟩ none).state,
        0⟩ :=
  c6_cached_second_call ⟨"", some "addr:1", false, 7⟩ none none "addr:1"
    (by decide) (by decide)

/-- C7: whenever the stop signal is among the events the loop services,
`Serve` returns exactly the wrapped result of `Executor.Close` — nil exactly
when the wait succeeds, the wait failure propagated otherwise — and the
caller-facing `Plugin.Close` sends exactly one stop signal and returns nil
itself, without waiting on the loop. -/
theorem c7_stop_close :
    ∀ (name : String) (events : List LoopEvent) (waitErr : Option String)
      (s : PluginState),
    LoopEvent.stop ∈ events →
    (eventLoop name events waitErr).1 = some (serveStopResult waitErr) ∧
    (serveStopResult waitErr = Except.ok () ↔
      executorClose waitErr = Except.ok ()) ∧
    pluginClose s = ([true], none) := by
  intro name events waitErr s hmem
  refine ⟨?_, ?_, rfl⟩
  · induction events with
    | nil => cases hmem
    | cons e rest ih =>
      cases e with
      | outLine l =>
        have hrest : LoopEvent.stop ∈ rest := by
          rcases List.mem_cons.mp hmem with h | h
          · exact absurd h.symm (by simp)
          · exact h
        simpa [eventLoop] using ih hrest
      | errLine l =>
        have hrest : LoopEvent.stop ∈ rest := by
          rcases List.mem_cons.mp hmem with h | h
          · exact absurd h.symm (by simp)
          · exact h
        simpa [eventLoop] using ih hrest
      | stop => simp [eventLoop]
  · cases waitErr with
    | none => simp [serveStopResult, executorClose]
    | some e => simp [serveStopResult, executorClose]

/-- C7 witness: a stop signal after one log line, with a failing wait. -/
theorem c7_stop_close_witness :
    (eventLoop "m" [LoopEvent.outLine "x", LoopEvent.stop] (some "boom")).1 =
      some (Except.error
        "Error closing local plugin binary: Error waiting for binary close: boom")
      :=
  (c7_stop_close "m" [LoopEvent.outLine "x", LoopEvent.stop] (some "boom")
    ⟨"", none, false, 0⟩ (by decide)).1

/-- C8 counterexample: Start composes the child's argv as the binary path
PREPENDED to the supervisor's full argv (its argv[0] included), which differs
from the claimed composition (argv with only argv[0] replaced). -/
theorem c8_counterexample :
    executorStart "d" "bin" ["sup", "a"] "" "" true true true =
      Except.ok ⟨["bin", "sup", "a"], none,
        [(PluginEnvKey, PluginEnvVal), (PluginEnvDriverName, "d")]⟩ ∧
    claimedChildArgv "bin" ["sup", "a"] = ["bin", "a"] ∧
    (["bin", "sup", "a"] : List String) ≠ ["bin", "a"] := by
  exact ⟨rfl, rfl, by decide⟩

/-- C8 (amended): every successful Start launches the child with argument
vector the resolved binary path followed by the supervisor's FULL argument
vector, the supervisor's argv[0] included. -/
theorem c8_argv_prepended :
    ∀ (dn bp : String) (args : List String) (ue ge : String) (po pe so : Bool)
      (spec : LaunchSpec),
    executorStart dn bp args ue ge po pe so = Except.ok spec →
    spec.argv = bp :: args := by
  intro dn bp args ue ge po pe so spec h
  unfold executorStart at h
  split at h
  · exact Except.noConfusion h
  · exact startFinish_ok_argv dn (bp :: args) _ po pe so spec h

/-- C8 witness. -/
theorem c8_argv_prepended_witness :
    (LaunchSpec.mk ["b", "sup", "x"] none
      [(PluginEnvKey, PluginEnvVal), (PluginEnvDriverName, "d")]).argv =
      "b" :: ["sup", "x"] :=
  c8_argv_prepended "d" "b" ["sup", "x"] "" "" true true true
    (LaunchSpec.mk ["b", "sup", "x"] none
      [(PluginEnvKey, PluginEnvVal), (PluginEnvDriverName, "d")]) rfl

/-- C9 counterexample: requesting the driver by a path, `NewPlugin` with a
failing lookup returns the not-found error carrying only the final path
component, not the originally requested name. -/
theorem c9_counterexample :
    newPlugin (fun _ => none) false "arg0" "dir/foo" =
      NewPluginResult.binaryNotFound "foo" "dir/foo" ∧
    ("foo" : String) ≠ "dir/foo" := by
  exact ⟨by decide, by decide⟩

/-- C9 (amended): for EVERY driver name whose binary lookup fails, `NewPlugin`
returns the not-found error carrying the final path component of the
requested name and the path that was searched (a bare name goes through
`driverPath`, a path-form name is searched as given); whenever the request
has no path separator, that component is exactly the originally requested
name.  No process is launched (construction never spawns). -/
theorem c9_not_found :
    ∀ (lookPath : String → Option String) (cur : Bool) (arg0 dn path : String),
    path = (if (filepathSplit dn).1 = "" then driverPath cur arg0 dn else dn) →
    lookPath path = none →
    newPlugin lookPath cur arg0 dn =
      NewPluginResult.binaryNotFound (filepathSplit dn).2 path ∧
    (('/' : Char) ∉ dn.data →
      newPlugin lookPath cur arg0 dn =
        NewPluginResult.binaryNotFound dn path) := by
  intro lookPath cur arg0 dn path hpath hlook
  have hmain : newPlugin lookPath cur arg0 dn =
      NewPluginResult.binaryNotFound (filepathSplit dn).2 path := by
    subst hpath
    simp only [newPlugin, hlook]
  refine ⟨hmain, fun hs => ?_⟩
  rw [hmain, filepathSplit_no_slash dn hs]

/-- C9 witness: a path-form driver name, searched as given. -/
theorem c9_not_found_witness :
    newPlugin (fun _ => none) false "arg0" "dir/foo" =
      NewPluginResult.binaryNotFound "foo" "dir/foo" :=
  (c9_not_found (fun _ => none) false "arg0" "dir/foo" "dir/foo"
    (by decide) rfl).1

/-- C10: the caller-facing `Plugin.Close`, whenever it returns, returns nil —
for every plugin state its returned error is `none`; shutdown failures are
observable only through Serve's return value (see the event-loop model). -/
theorem c10_close_returns_nil :
    ∀ s : PluginState, (pluginClose s).2 = none := by
  intro s
  rfl

end LocalBinary
